import Mathlib

/-!
Shallow embedding of the offline-sync task backend (Express/SQLite/TypeScript).

The embedding models the SQLite database as an explicit in-memory state
(`DBState`) and each service method as a pure state-passing function.
Timestamps (`Date` values and ISO strings in SQLite columns) are modelled
as `Nat`; SQLite orders ISO date strings chronologically, so `Nat` order is
faithful. Fresh UUIDs (`uuidv4()`) are passed in as explicit arguments.
Network calls (`axios`) are modelled by a function argument returning
`Except String BatchSyncResponse`: `Except.error` covers both a transport
failure and a checksum rejection by the authority (axios throws on a 400
response), `Except.ok` is a parsed 2xx response body.
-/

namespace SyncSpec

/-- Task record, mirroring the `Task` row shape of `db/database.ts`
(`mapRowToTask`) and the `Task` objects built in `taskService.ts`. -/
structure Task where
  id : String
  title : String
  description : Option String
  completed : Bool
  created_at : Nat
  updated_at : Nat
  is_deleted : Bool
  sync_status : String
  server_id : Option String
  last_synced_at : Option Nat
deriving DecidableEq

/-- Row of the `sync_queue` table. The `data` column stores a JSON snapshot;
the only values this program ever stores there are a full task object or the
empty object (the delete route passes the empty object), modelled as
`Option Task` with `none` for the empty object. -/
structure SyncQueueItem where
  id : String
  task_id : String
  operation : String
  data : Option Task
  created_at : Nat
  retry_count : Nat
  error_message : Option String
  status : String
deriving DecidableEq

/-- Row of the `dead_letter_queue` table. The schema in
`Database.createTables` has columns id, task_id, operation, data,
created_at, error_message, failed_at; it has NO retry_count column.
`failed_at` is filled by a SQL default and never read back, so it is not
modelled. -/
structure DeadLetterRow where
  id : String
  task_id : String
  operation : String
  data : Option Task
  created_at : Nat
  error_message : Option String
deriving DecidableEq

/-- Shape of the objects returned by `Database.getDeadLetterQueue`: the
mapper builds exactly these keys (note it fabricates `retry_count`). -/
structure DeadLetterReadItem where
  id : String
  task_id : String
  operation : String
  data : Option Task
  created_at : Nat
  retry_count : Nat
  error_message : Option String
deriving DecidableEq

/-- The SQLite database state: the three tables created by
`Database.createTables`. -/
structure DBState where
  tasks : List Task
  sync_queue : List SyncQueueItem
  dead_letter : List DeadLetterRow
deriving DecidableEq

/-- One element of `processed_items` in the authority response of the batch
endpoint wire contract. -/
structure ProcessedItem where
  client_id : String
  server_id : String
  status : String
  resolved_data : Option Task := none
  operation : Option String := none
  error : Option String := none
deriving DecidableEq

/-- Response body of the batch endpoint (`BatchSyncResponse`). -/
structure BatchSyncResponse where
  processed_items : List ProcessedItem
deriving DecidableEq

/-- Structured error of a sync summary (`SyncError` in `types`). -/
structure SyncError where
  task_id : String
  operation : String
  error : String
  timestamp : Nat
deriving DecidableEq

/-- Result of one sync cycle (`SyncResult` in `types`). -/
structure SyncResult where
  success : Bool
  synced_items : Nat
  failed_items : Nat
  errors : List SyncError
deriving DecidableEq

/-- Result of `SyncService.resolveConflict` (`ConflictResolution`). -/
structure ConflictResolution where
  strategy : String
  resolved_task : Task
deriving DecidableEq

/-- JavaScript `a || b` on an optional string: missing values and the empty
string are falsy. -/
def jsOr (a : Option String) (b : String) : String :=
  match a with
  | none => b
  | some s => if s = "" then b else s

namespace Database

/-- `Database.insertTask`: `INSERT INTO tasks ...`. -/
def insertTask (db : DBState) (task : Task) : DBState :=
  { db with tasks := db.tasks ++ [task] }

/-- `Database.updateTask`: `UPDATE tasks SET title, description, completed,
updated_at, is_deleted, sync_status, server_id, last_synced_at WHERE id = ?`.
The row keeps its own `id` and `created_at` (the UPDATE does not set them). -/
def updateTask (db : DBState) (task : Task) : DBState :=
  { db with tasks := db.tasks.map (fun row =>
      if row.id == task.id then
        { task with id := row.id, created_at := row.created_at }
      else row) }

/-- `Database.getTaskById`: `SELECT * FROM tasks WHERE id = ?` (first row). -/
def getTaskById (db : DBState) (id : String) : Option Task :=
  db.tasks.find? (fun t => t.id == id)

/-- `Database.getAllTasks`: `SELECT * FROM tasks WHERE is_deleted = 0`. -/
def getAllTasks (db : DBState) : List Task :=
  db.tasks.filter (fun t => !t.is_deleted)

/-- `Database.addToSyncQueue`: the INSERT does not list the `status` column,
so the row takes the SQL default `pending`. -/
def addToSyncQueue (db : DBState) (item : SyncQueueItem) : DBState :=
  { db with sync_queue := db.sync_queue ++ [{ item with status := "pending" }] }

/-- `Database.addToDeadLetterQueue`: the INSERT lists only id, task_id,
operation, data, created_at, error_message — the retry count of the given
item is dropped because the table has no such column. -/
def addToDeadLetterQueue (db : DBState) (item : SyncQueueItem) : DBState :=
  { db with dead_letter := db.dead_letter ++ [{
      id := item.id
      task_id := item.task_id
      operation := item.operation
      data := item.data
      created_at := item.created_at
      error_message := item.error_message }] }

/-- `Database.getDeadLetterQueue`: reads every row back and substitutes the
constant 3 for `retry_count` (source comment: always failed after max
retries). -/
def getDeadLetterQueue (db : DBState) : List DeadLetterReadItem :=
  db.dead_letter.map (fun row => {
    id := row.id
    task_id := row.task_id
    operation := row.operation
    data := row.data
    created_at := row.created_at
    retry_count := 3
    error_message := row.error_message })

end Database

/-- Input shape `Partial<Task>` as consumed by `TaskService.createTask`
(only these fields are read there; `updated_at` is accepted by the route but
ignored by the service). -/
structure TaskInput where
  id : Option String := none
  title : Option String := none
  description : Option String := none
  completed : Option Bool := none
  updated_at : Option Nat := none
deriving DecidableEq

namespace TaskService

/-- `TaskService.createTask`: builds the task (fresh ids and the current
time passed explicitly), saves it, and adds a create entry to the sync
queue via `Database.addToSyncQueue`. -/
def createTask (db : DBState) (data : TaskInput) (freshTaskId freshQueueId : String)
    (now : Nat) : Task × DBState :=
  let task : Task := {
    id := data.id.getD freshTaskId
    title := data.title.getD "Untitled Task"
    description := data.description
    completed := data.completed.getD false
    created_at := now
    updated_at := now
    is_deleted := false
    sync_status := "pending"
    server_id := none
    last_synced_at := none }
  let db1 := Database.insertTask db task
  let db2 := Database.addToSyncQueue db1 {
    id := freshQueueId
    task_id := task.id
    operation := "create"
    data := some task
    created_at := now
    retry_count := 0
    error_message := none
    status := "pending" }
  (task, db2)

/-- `TaskService.deleteTask`: soft delete. Looks the task up with
`Database.getTaskById` (which does NOT filter out already-deleted rows),
sets `is_deleted`, refreshes `updated_at`, and enqueues a delete entry. -/
def deleteTask (db : DBState) (id : String) (freshQueueId : String) (now : Nat) :
    Bool × DBState :=
  match Database.getTaskById db id with
  | none => (false, db)
  | some existing =>
    let deleted : Task :=
      { existing with is_deleted := true, updated_at := now, sync_status := "pending" }
    let db1 := Database.updateTask db deleted
    let db2 := Database.addToSyncQueue db1 {
      id := freshQueueId
      task_id := deleted.id
      operation := "delete"
      data := some deleted
      created_at := now
      retry_count := 0
      error_message := none
      status := "pending" }
    (true, db2)

/-- `TaskService.getTask`: returns `none` when the task is missing OR
soft-deleted. -/
def getTask (db : DBState) (id : String) : Option Task :=
  match Database.getTaskById db id with
  | none => none
  | some task => if task.is_deleted then none else some task

/-- `TaskService.updateTaskAfterSync`: called after a successful sync;
stores the server id, marks the task synced and stamps `last_synced_at`. -/
def updateTaskAfterSync (db : DBState) (taskId serverId : String) (now : Nat) : DBState :=
  match Database.getTaskById db taskId with
  | none => db
  | some task =>
    Database.updateTask db
      { task with server_id := some serverId, sync_status := "synced",
                  last_synced_at := some now }

/-- `TaskService.saveResolvedTask`: persists a conflict winner as synced. -/
def saveResolvedTask (db : DBState) (resolvedTask : Task) (now : Nat) : DBState :=
  Database.updateTask db
    { resolvedTask with sync_status := "synced", last_synced_at := some now }

end TaskService

/-- Drain order of `SyncService.sync`: `ORDER BY task_id, created_at ASC`. -/
def queueLE (a b : SyncQueueItem) : Prop :=
  a.task_id < b.task_id ∨ (a.task_id = b.task_id ∧ a.created_at ≤ b.created_at)

instance : DecidableRel queueLE := fun a b => by
  unfold queueLE; infer_instance

instance : IsTotal SyncQueueItem queueLE where
  total a b := by
    rcases lt_trichotomy a.task_id b.task_id with h | h | h
    · exact Or.inl (Or.inl h)
    · rcases Nat.le_total a.created_at b.created_at with hc | hc
      · exact Or.inl (Or.inr ⟨h, hc⟩)
      · exact Or.inr (Or.inr ⟨h.symm, hc⟩)
    · exact Or.inr (Or.inl h)

instance : IsTrans SyncQueueItem queueLE where
  trans a b c hab hbc := by
    rcases hab with h1 | ⟨h1, h1c⟩ <;> rcases hbc with h2 | ⟨h2, h2c⟩
    · exact Or.inl (h1.trans h2)
    · exact Or.inl (h2 ▸ h1)
    · exact Or.inl (h1 ▸ h2)
    · exact Or.inr ⟨h1.trans h2, h1c.trans h2c⟩

namespace SyncService

/-- The SELECT at the top of `SyncService.sync`:
`SELECT * FROM sync_queue WHERE status = 'pending'
 ORDER BY task_id, created_at ASC`. -/
def drainCandidates (db : DBState) : List SyncQueueItem :=
  (db.sync_queue.filter (fun e => e.status == "pending")).insertionSort queueLE

/-- A SELECT reads rows and leaves the database unchanged; this is the
drain step of a sync cycle as a state transformer. -/
def drainStep (db : DBState) : List SyncQueueItem × DBState :=
  (drainCandidates db, db)

/-- `SyncService.addToSyncQueue` (distinct from `Database.addToSyncQueue`):
INSERT that sets every column explicitly, with `retry_count = 0`,
`error_message = NULL` and `status = 'pending'`. -/
def addToSyncQueue (db : DBState) (taskId operation : String) (data : Option Task)
    (freshId : String) (now : Nat) : DBState :=
  { db with sync_queue := db.sync_queue ++ [{
      id := freshId
      task_id := taskId
      operation := operation
      data := data
      created_at := now
      retry_count := 0
      error_message := none
      status := "pending" }] }

/-- `SyncService.handleSyncError`: increments the retry count taken from
the in-memory item; at the ceiling (`maxRetries = 3`) the entry is copied
to the dead letter queue and deleted from `sync_queue`, otherwise the row
is updated in place and stays pending. -/
def handleSyncError (db : DBState) (item : SyncQueueItem) (errorMsg : String) : DBState :=
  let newRetryCount := item.retry_count + 1
  let maxRetries := 3
  if newRetryCount ≥ maxRetries then
    let db1 := Database.addToDeadLetterQueue db
      { item with error_message := some errorMsg, retry_count := newRetryCount }
    { db1 with sync_queue := db1.sync_queue.filter (fun e => !(e.id == item.id)) }
  else
    { db with sync_queue := db.sync_queue.map (fun e =>
        if e.id == item.id then
          { e with retry_count := newRetryCount, error_message := some errorMsg,
                   status := "pending" }
        else e) }

/-- `SyncService.resolveConflict`: pure last-write-wins comparison on
`updated_at`; the operation arguments are accepted and ignored. -/
def resolveConflict (localTask serverTask : Task) (_localOp _serverOp : String) :
    ConflictResolution :=
  if localTask.updated_at > serverTask.updated_at then
    { strategy := "last-write-wins", resolved_task := localTask }
  else if serverTask.updated_at > localTask.updated_at then
    { strategy := "last-write-wins", resolved_task := serverTask }
  else
    { strategy := "last-write-wins", resolved_task := serverTask }

/-- `UPDATE sync_queue SET status = 'synced', error_message = NULL
WHERE id = ?` — the success branch of `processBatch`. -/
def markSynced (db : DBState) (id : String) : DBState :=
  { db with sync_queue := db.sync_queue.map (fun e =>
      if e.id == id then { e with status := "synced", error_message := none } else e) }

/-- `UPDATE sync_queue SET status = 'synced' WHERE id = ?` — the conflict
branch of `processBatch` (it does not clear `error_message`). -/
def markStatusSynced (db : DBState) (id : String) : DBState :=
  { db with sync_queue := db.sync_queue.map (fun e =>
      if e.id == id then { e with status := "synced" } else e) }

/-- `JSON.parse(item.data) as Task`. The stored snapshot is a full task or
the empty object; for the empty object the parsed `updated_at` is an
invalid date whose numeric comparisons are all false, so `resolveConflict`
picks the server task — exactly the outcome of timestamp 0 used here (a
genuine server timestamp is never strictly smaller than 0). -/
def parseData (d : Option Task) : Task :=
  d.getD {
    id := ""
    title := ""
    description := none
    completed := false
    created_at := 0
    updated_at := 0
    is_deleted := false
    sync_status := "pending"
    server_id := none
    last_synced_at := none }

/-- Application of one element of `processed_items` inside the result loop
of `SyncService.processBatch`. A result with no matching local queue entry
is skipped. -/
def applyOne (items : List SyncQueueItem) (now : Nat) (db : DBState)
    (result : ProcessedItem) : DBState :=
  match items.find? (fun i => i.id == result.client_id) with
  | none => db
  | some item =>
    if result.status == "success" then
      TaskService.updateTaskAfterSync (markSynced db item.id)
        item.task_id result.server_id now
    else if result.status == "conflict" && result.resolved_data.isSome then
      match result.resolved_data with
      | some resolvedData =>
        let resolution := resolveConflict (parseData item.data) resolvedData
          item.operation (jsOr result.operation "update")
        markStatusSynced (TaskService.saveResolvedTask db resolution.resolved_task now)
          item.id
      | none => db
    else
      handleSyncError db item (jsOr result.error "Unknown error")

/-- The `for` loop of `SyncService.processBatch` over `processed_items`. -/
def applyResults (items : List SyncQueueItem) (now : Nat) (db : DBState)
    (results : List ProcessedItem) : DBState :=
  results.foldl (applyOne items now) db

/-- `SyncService.processBatch`: computes the checksum, POSTs the batch (the
`net` argument models the axios round trip — `Except.error` is a thrown
transport failure or a non-2xx rejection such as a checksum mismatch, before
any per-item processing), then applies every per-item result. -/
def processBatch (net : List SyncQueueItem → Except String BatchSyncResponse)
    (now : Nat) (db : DBState) (items : List SyncQueueItem) :
    Except String (BatchSyncResponse × DBState) :=
  match net items with
  | Except.error e => Except.error e
  | Except.ok resp => Except.ok (resp, applyResults items now db resp.processed_items)

/-- The structured error built per rejected result in the success path of
`SyncService.sync`: note `task_id := r.client_id` — the QUEUE ENTRY id —
and the `pendingItems.find(...)?.operation || unknown` lookup. -/
def mkSyncError (pendingItems : List SyncQueueItem) (now : Nat)
    (r : ProcessedItem) : SyncError :=
  { task_id := r.client_id
    operation := jsOr ((pendingItems.find?
      (fun i => i.id == r.client_id)).map SyncQueueItem.operation) "unknown"
    error := jsOr r.error "Unknown error"
    timestamp := now }

/-- `SyncService.sync`: drains pending entries, short-circuits on an empty
queue, runs `processBatch`, and builds the summary. On a thrown batch
failure the catch block only builds a failure report — the database is not
touched there. Note both error paths put the queue entry id (`client_id` /
`item.id`) into the `task_id` field of each structured error. -/
def sync (db : DBState) (net : List SyncQueueItem → Except String BatchSyncResponse)
    (now : Nat) : SyncResult × DBState :=
  let pendingItems := drainCandidates db
  if pendingItems.length = 0 then
    ({ success := true, synced_items := 0, failed_items := 0, errors := [] }, db)
  else
    match processBatch net now db pendingItems with
    | Except.ok (batchResponse, db1) =>
      let synced := (batchResponse.processed_items.filter
        (fun r => r.status == "success")).length
      let failed := (batchResponse.processed_items.filter
        (fun r => r.status == "error")).length
      let errors := (batchResponse.processed_items.filter
        (fun r => r.status == "error")).map (mkSyncError pendingItems now)
      ({ success := true, synced_items := synced, failed_items := failed,
         errors := errors }, db1)
    | Except.error err =>
      ({ success := false, synced_items := 0, failed_items := pendingItems.length,
         errors := pendingItems.map (fun item => {
           task_id := item.id
           operation := item.operation
           error := err
           timestamp := now : SyncError }) }, db)

end SyncService

namespace Routes

/-- POST handler of `createTaskRouter` (`routes/tasks.ts`): validates the
title, calls `TaskService.createTask` (which already enqueues), then calls
`SyncService.addToSyncQueue` a second time. Returns the created task, or
`none` for the 400 response. -/
def postTask (db : DBState) (title description : Option String)
    (freshTaskId freshQueueId1 freshQueueId2 : String) (now : Nat) :
    Option Task × DBState :=
  match title with
  | none => (none, db)
  | some t =>
    let created := TaskService.createTask db
      { title := some t, description := some (description.getD ""),
        completed := some false, updated_at := some now }
      freshTaskId freshQueueId1 now
    let db2 := SyncService.addToSyncQueue created.2 created.1.id "create"
      (some created.1) freshQueueId2 now
    (some created.1, db2)

/-- DELETE handler of `createTaskRouter`: calls `TaskService.deleteTask`
(which already enqueues), then enqueues again with an empty data object. -/
def deleteTask (db : DBState) (id : String) (freshQueueId1 freshQueueId2 : String)
    (now : Nat) : Bool × DBState :=
  let deleted := TaskService.deleteTask db id freshQueueId1 now
  if deleted.1 then
    (true, SyncService.addToSyncQueue deleted.2 id "delete" none freshQueueId2 now)
  else
    (false, deleted.2)

end Routes

/-! Concrete fixtures used by witnesses and counterexamples. -/

/-- A concrete task. -/
def task1 : Task := {
  id := "t1", title := "x", description := none, completed := false,
  created_at := 0, updated_at := 0, is_deleted := false,
  sync_status := "pending", server_id := none, last_synced_at := none }

/-- A concrete pending queue entry for `task1` with `retry_count = 0`. -/
def q1 : SyncQueueItem := {
  id := "q1", task_id := "t1", operation := "create", data := some task1,
  created_at := 1, retry_count := 0, error_message := none, status := "pending" }

/-- A database holding `task1` and the single pending entry `q1`. -/
def db1 : DBState := { tasks := [task1], sync_queue := [q1], dead_letter := [] }

/-- An empty database. -/
def emptyDB : DBState := { tasks := [], sync_queue := [], dead_letter := [] }

/-- `task1` with a strictly later `updated_at`. -/
def task1Later : Task := { task1 with updated_at := 5, title := "y" }

/-- A task equal-timestamped with `task1` but differing in a
non-timestamp field. -/
def task1Tie : Task := { task1 with title := "z" }

/-- Helper: the resolver always labels its result with the
last-write-wins strategy. -/
theorem resolveConflict_strategy (l r : Task) (lop rop : String) :
    (SyncService.resolveConflict l r lop rop).strategy = "last-write-wins" := by
  unfold SyncService.resolveConflict
  split
  · rfl
  · split <;> rfl

/-- Helper: a strictly later local task wins. -/
theorem resolveConflict_of_local_later (l r : Task) (lop rop : String)
    (h : r.updated_at < l.updated_at) :
    (SyncService.resolveConflict l r lop rop).resolved_task = l := by
  unfold SyncService.resolveConflict
  rw [if_pos h]

/-- Helper: when the local task is not strictly later (so the server task
is strictly later or the timestamps tie), the server task wins. -/
theorem resolveConflict_of_local_not_later (l r : Task) (lop rop : String)
    (h : l.updated_at ≤ r.updated_at) :
    (SyncService.resolveConflict l r lop rop).resolved_task = r := by
  unfold SyncService.resolveConflict
  rw [if_neg (by omega)]
  split <;> rfl

/-- C4. For every pair of tasks, the conflict resolver returns the local
task when its `updated_at` is strictly later, the remote (server) task when
that one is strictly later, the remote task on equal timestamps, and the
result always carries the strategy `last-write-wins`. -/
theorem resolveConflict_last_write_wins (l r : Task) (lop rop : String) :
    (SyncService.resolveConflict l r lop rop).strategy = "last-write-wins" ∧
    (l.updated_at > r.updated_at →
      (SyncService.resolveConflict l r lop rop).resolved_task = l) ∧
    (r.updated_at > l.updated_at →
      (SyncService.resolveConflict l r lop rop).resolved_task = r) ∧
    (l.updated_at = r.updated_at →
      (SyncService.resolveConflict l r lop rop).resolved_task = r) :=
  ⟨resolveConflict_strategy l r lop rop,
   fun h => resolveConflict_of_local_later l r lop rop h,
   fun h => resolveConflict_of_local_not_later l r lop rop (Nat.le_of_lt h),
   fun h => resolveConflict_of_local_not_later l r lop rop (Nat.le_of_eq h)⟩

/-- C4 witness: the three branches evaluated at concrete tasks. -/
theorem resolveConflict_last_write_wins_witness :
    (SyncService.resolveConflict task1Later task1 "update" "update").resolved_task
      = task1Later ∧
    (SyncService.resolveConflict task1 task1Later "update" "update").resolved_task
      = task1Later ∧
    (SyncService.resolveConflict task1 task1Tie "update" "update").resolved_task
      = task1Tie ∧
    (SyncService.resolveConflict task1 task1Tie "update" "update").strategy
      = "last-write-wins" :=
  ⟨(resolveConflict_last_write_wins task1Later task1 "update" "update").2.1 (by decide),
   (resolveConflict_last_write_wins task1 task1Later "update" "update").2.2.1 (by decide),
   (resolveConflict_last_write_wins task1 task1Tie "update" "update").2.2.2 (by decide),
   (resolveConflict_last_write_wins task1 task1Tie "update" "update").1⟩

/-- C5. Winner selection is argument-order independent when the timestamps
differ, and on equal timestamps the resolver returns the second
(remote-position) argument: the tie-break is positional. -/
theorem resolveConflict_commutative_and_positional_tie (a b : Task)
    (o1 o2 o3 o4 : String) :
    (a.updated_at ≠ b.updated_at →
      (SyncService.resolveConflict a b o1 o2).resolved_task =
      (SyncService.resolveConflict b a o3 o4).resolved_task) ∧
    (a.updated_at = b.updated_at →
      (SyncService.resolveConflict a b o1 o2).resolved_task = b) := by
  constructor
  · intro hne
    rcases Nat.lt_or_ge a.updated_at b.updated_at with h | h
    · rw [resolveConflict_of_local_not_later a b o1 o2 (Nat.le_of_lt h),
          resolveConflict_of_local_later b a o3 o4 h]
    · have h2 : b.updated_at < a.updated_at := Nat.lt_of_le_of_ne h (fun e => hne e.symm)
      rw [resolveConflict_of_local_later a b o1 o2 h2,
          resolveConflict_of_local_not_later b a o3 o4 (Nat.le_of_lt h2)]
  · intro heq
    exact resolveConflict_of_local_not_later a b o1 o2 (Nat.le_of_eq heq)

/-- C5 witness: distinct timestamps resolve to the same winner in both
argument orders; equal-timestamp tasks differing only in `title` resolve to
the second argument. -/
theorem resolveConflict_commutative_witness :
    (SyncService.resolveConflict task1 task1Later "update" "update").resolved_task =
      (SyncService.resolveConflict task1Later task1 "update" "update").resolved_task ∧
    (SyncService.resolveConflict task1 task1Tie "update" "update").resolved_task =
      task1Tie ∧
    (SyncService.resolveConflict task1Tie task1 "update" "update").resolved_task =
      task1 :=
  ⟨(resolveConflict_commutative_and_positional_tie task1 task1Later
      "update" "update" "update" "update").1 (by decide),
   (resolveConflict_commutative_and_positional_tie task1 task1Tie
      "update" "update" "update" "update").2 (by decide),
   (resolveConflict_commutative_and_positional_tie task1Tie task1
      "update" "update" "update" "update").2 (by decide)⟩

/-- C6. Recording a failure increments the retry count of the entry by 1;
at the ceiling 3 the entry lands in the dead-letter store and no entry with
its id stays in the active queue; below the ceiling the entry stays in the
active queue with status `pending`, the incremented retry count and the
recorded error message. Applied to an entry on its third failure
(stored retry count 2) this gives the dead-letter case, and on its second
failure (stored retry count 1) the pending case with retry count 2. -/
theorem record_failure_retry_ceiling (db : DBState) (item : SyncQueueItem) (msg : String)
    (hmem : item ∈ db.sync_queue) :
    (item.retry_count + 1 ≥ 3 →
      (∃ r ∈ (SyncService.handleSyncError db item msg).dead_letter,
          r.id = item.id ∧ r.error_message = some msg) ∧
      ∀ e ∈ (SyncService.handleSyncError db item msg).sync_queue, e.id ≠ item.id) ∧
    (item.retry_count + 1 < 3 →
      ∃ e ∈ (SyncService.handleSyncError db item msg).sync_queue,
        e.id = item.id ∧ e.retry_count = item.retry_count + 1 ∧
        e.status = "pending" ∧ e.error_message = some msg) := by
  constructor
  · intro h3
    simp only [SyncService.handleSyncError, if_pos h3]
    constructor
    · refine ⟨⟨item.id, item.task_id, item.operation, item.data,
        item.created_at, some msg⟩, ?_, rfl, rfl⟩
      simp only [Database.addToDeadLetterQueue]
      exact List.mem_append_right _ (List.mem_singleton.mpr rfl)
    · intro e he
      simp only [Database.addToDeadLetterQueue, List.mem_filter] at he
      simpa using he.2
  · intro hlt
    have h3 : ¬ (item.retry_count + 1 ≥ 3) := by omega
    simp only [SyncService.handleSyncError, if_neg h3]
    refine ⟨{ item with
                retry_count := item.retry_count + 1,
                error_message := some msg,
                status := "pending" },
            ?_, rfl, rfl, rfl, rfl⟩
    refine List.mem_map.mpr ⟨item, hmem, ?_⟩
    simp

/-- Entry with stored retry count 2: the next failure is its third. -/
def qr2 : SyncQueueItem := { q1 with id := "qr2", retry_count := 2 }

/-- Queue state holding `qr2` and `q1`. -/
def dbr : DBState := { tasks := [], sync_queue := [qr2, q1], dead_letter := [] }

/-- C6 witness: after a third failure of qr2 the surviving active queue is
exactly the other entry (whose id the theorem shows differs from qr2); a
first failure of q1 leaves qr2 at retry count 2 and q1 pending at retry
count 1. -/
theorem record_failure_retry_ceiling_witness :
    q1.id ≠ qr2.id ∧
    ((SyncService.handleSyncError dbr qr2 "boom").dead_letter.map
      DeadLetterRow.id) = ["qr2"] ∧
    ((SyncService.handleSyncError dbr q1 "boom").sync_queue.map
      SyncQueueItem.retry_count) = [2, 1] :=
  ⟨((record_failure_retry_ceiling dbr qr2 "boom" (by decide)).1 (by decide)).2
      q1 (by decide),
   by decide,
   by decide⟩

/-- C9. The dead-letter table stores no retry count, and the reader
substitutes the constant 3: whatever retry count an inserted entry carried,
every row read back — in particular the row for that entry — reports
`retry_count = 3`. -/
theorem dead_letter_read_reports_retry_three (db : DBState) (item : SyncQueueItem) :
    (∀ r ∈ Database.getDeadLetterQueue (Database.addToDeadLetterQueue db item),
        r.retry_count = 3) ∧
    ∃ r ∈ Database.getDeadLetterQueue (Database.addToDeadLetterQueue db item),
        r.id = item.id ∧ r.retry_count = 3 := by
  constructor
  · intro r hr
    simp only [Database.getDeadLetterQueue, List.mem_map] at hr
    obtain ⟨row, _, rfl⟩ := hr
    rfl
  · refine ⟨⟨item.id, item.task_id, item.operation, item.data,
      item.created_at, 3, item.error_message⟩, ?_, rfl, rfl⟩
    refine List.mem_map.mpr ⟨⟨item.id, item.task_id, item.operation, item.data,
      item.created_at, item.error_message⟩, ?_, rfl⟩
    simp only [Database.addToDeadLetterQueue]
    exact List.mem_append_right _ (List.mem_singleton.mpr rfl)

/-- Entry inserted into the dead-letter store with retry count 7. -/
def dlItem7 : SyncQueueItem := { q1 with id := "dq1", retry_count := 7 }

/-- Expected read-back row for `dlItem7`: retry count reported as 3. -/
def dlRead1 : DeadLetterReadItem := {
  id := "dq1", task_id := "t1", operation := "create", data := some task1,
  created_at := 1, retry_count := 3, error_message := none }

/-- C9 witness: an entry inserted with retry count 7 is read back with
retry count 3. -/
theorem dead_letter_read_witness :
    dlRead1 ∈ Database.getDeadLetterQueue (Database.addToDeadLetterQueue emptyDB dlItem7) ∧
    dlRead1.retry_count = 3 :=
  ⟨by decide,
   (dead_letter_read_reports_retry_three emptyDB dlItem7).1 dlRead1 (by decide)⟩

/-- C10. A task that exists but is soft-deleted is invisible to `getTask`
(`none`, i.e. 404 at the route), yet `deleteTask` on the same id reports
success and enqueues a further delete queue entry for it. -/
theorem soft_deleted_delete_succeeds (db : DBState) (id freshQueueId : String)
    (now : Nat) (t : Task)
    (hget : Database.getTaskById db id = some t) (hdel : t.is_deleted = true) :
    TaskService.getTask db id = none ∧
    (TaskService.deleteTask db id freshQueueId now).1 = true ∧
    ∃ e ∈ (TaskService.deleteTask db id freshQueueId now).2.sync_queue,
      e.id = freshQueueId ∧ e.task_id = t.id ∧ e.operation = "delete" ∧
      e.status = "pending" := by
  refine ⟨?_, ?_, ?_⟩
  · unfold TaskService.getTask
    rw [hget]
    simp [hdel]
  · unfold TaskService.deleteTask
    rw [hget]
  · unfold TaskService.deleteTask
    rw [hget]
    simp only [Database.addToSyncQueue]
    exact ⟨_, List.mem_append_right _ (List.mem_singleton.mpr rfl),
      rfl, rfl, rfl, rfl⟩

/-- A soft-deleted task on record. -/
def deletedTask : Task := { task1 with id := "t2", is_deleted := true }

/-- Database holding only the soft-deleted task. -/
def dbDel : DBState := { tasks := [deletedTask], sync_queue := [], dead_letter := [] }

/-- C10 witness: concrete soft-deleted task is not found by `getTask` but
`deleteTask` succeeds and enqueues a delete entry. -/
theorem soft_deleted_delete_witness :
    TaskService.getTask dbDel "t2" = none ∧
    (TaskService.deleteTask dbDel "t2" "q9" 4).1 = true ∧
    ((TaskService.deleteTask dbDel "t2" "q9" 4).2.sync_queue.map
      SyncQueueItem.id) = ["q9"] :=
  ⟨(soft_deleted_delete_succeeds dbDel "t2" "q9" 4 deletedTask
      (by decide) (by decide)).1,
   (soft_deleted_delete_succeeds dbDel "t2" "q9" 4 deletedTask
      (by decide) (by decide)).2.1,
   by decide⟩

/-- C7. The drain step of a sync cycle selects exactly the entries whose
status is `pending`, the selection is sorted by `(task_id, created_at)`
ascending, and the selection itself leaves the database — in particular
every entry and its status — unchanged. -/
theorem drain_selects_pending_sorted_readonly (db : DBState) :
    (∀ e, e ∈ SyncService.drainCandidates db ↔
        (e ∈ db.sync_queue ∧ e.status = "pending")) ∧
    List.Sorted queueLE (SyncService.drainCandidates db) ∧
    (SyncService.drainStep db).2 = db := by
  refine ⟨?_, ?_, rfl⟩
  · intro e
    unfold SyncService.drainCandidates
    rw [List.mem_insertionSort, List.mem_filter]
    simp
  · exact List.sorted_insertionSort queueLE _

/-- C7 witness: in the concrete state `db1` the pending entry `q1` is
selected and the selection is sorted. -/
theorem drain_selects_witness :
    q1 ∈ SyncService.drainCandidates db1 ∧
    List.Sorted queueLE (SyncService.drainCandidates db1) ∧
    (SyncService.drainStep db1).2 = db1 :=
  ⟨((drain_selects_pending_sorted_readonly db1).1 q1).mpr ⟨by decide, rfl⟩,
   (drain_selects_pending_sorted_readonly db1).2.1,
   (drain_selects_pending_sorted_readonly db1).2.2⟩

/-- C1 counterexample. One pending entry with retry count 0; the batch
transmission fails (the authority rejects with a checksum mismatch, which
axios surfaces as a thrown error). Zero entries are marked synced — but no
retry count is incremented either: the catch block of `sync` only builds
the failure report, so the queue still holds the entry with retry count 0,
refuting that every entry ends with retry count incremented by 1. -/
theorem transport_failure_counterexample :
    (SyncService.sync db1 (fun _ => Except.error "Checksum mismatch") 2).1.synced_items
      = 0 ∧
    ¬ (∀ e ∈ (SyncService.sync db1
          (fun _ => Except.error "Checksum mismatch") 2).2.sync_queue,
        e.retry_count = q1.retry_count + 1) := by
  constructor
  · decide
  · decide

/-- C1 amended. On a batch-level failure (transport failure or checksum
rejection) the cycle reports failure with zero synced items and all N
pending entries counted as failed, but the database is returned unchanged:
no entry is routed through the failure-recording path and no retry count
changes. -/
theorem transport_failure_reports_without_retry (db : DBState) (msg : String)
    (now : Nat) (hne : (SyncService.drainCandidates db).length ≠ 0) :
    (SyncService.sync db (fun _ => Except.error msg) now).1.success = false ∧
    (SyncService.sync db (fun _ => Except.error msg) now).1.synced_items = 0 ∧
    (SyncService.sync db (fun _ => Except.error msg) now).1.failed_items =
      (SyncService.drainCandidates db).length ∧
    (SyncService.sync db (fun _ => Except.error msg) now).2 = db := by
  simp only [SyncService.sync, if_neg hne]
  exact ⟨rfl, rfl, rfl, rfl⟩

/-- C1 amended witness: the concrete one-entry state. -/
theorem transport_failure_reports_witness :
    (SyncService.sync db1 (fun _ => Except.error "boom") 2).1.success = false ∧
    (SyncService.sync db1 (fun _ => Except.error "boom") 2).1.failed_items =
      (SyncService.drainCandidates db1).length ∧
    (SyncService.sync db1 (fun _ => Except.error "boom") 2).2 = db1 :=
  ⟨(transport_failure_reports_without_retry db1 "boom" 2 (by decide)).1,
   (transport_failure_reports_without_retry db1 "boom" 2 (by decide)).2.2.1,
   (transport_failure_reports_without_retry db1 "boom" 2 (by decide)).2.2.2⟩

/-- C2 (code-bug evidence). POST /tasks with body title "x" on an empty
database: the task commits once, but TWO pending sync-queue entries
referencing it exist immediately after the mutation — one inserted by
`TaskService.createTask`, a second inserted by the route handler via
`SyncService.addToSyncQueue`. -/
theorem create_route_enqueues_twice :
    ((Routes.postTask emptyDB (some "x") none "t1" "qa" "qb" 0).2.sync_queue.filter
      (fun e => e.task_id == "t1" && e.status == "pending")).length = 2 := by
  decide

/-- Helper: `find?` by id over the task list after the row rewrite done by
`Database.updateTask`: the first row carrying the id of the written task
becomes the written task, keeping the row id and creation time. -/
theorem find?_map_updateRow (task t : Task) :
    ∀ l : List Task, l.find? (fun row => row.id == task.id) = some t →
      (l.map (fun row => if row.id == task.id then
          { task with id := row.id, created_at := row.created_at } else row)).find?
        (fun row => row.id == task.id) =
      some { task with id := t.id, created_at := t.created_at }
  | [], h => by simp at h
  | hd :: tl, h => by
    by_cases hh : (hd.id == task.id) = true
    · rw [List.find?_cons_of_pos (p := fun (row : Task) => row.id == task.id) tl hh] at h
      injection h with h2
      subst h2
      simp only [List.map_cons, if_pos hh]
      exact List.find?_cons_of_pos _ hh
    · rw [List.find?_cons_of_neg (p := fun (row : Task) => row.id == task.id) tl hh] at h
      simp only [List.map_cons, if_neg hh]
      rw [List.find?_cons_of_neg (p := fun (row : Task) => row.id == task.id) _ hh]
      exact find?_map_updateRow task t tl h

/-- Helper: `Database.getTaskById` at the written id after
`Database.updateTask`. -/
theorem getTaskById_updateTask (db : DBState) (task t : Task)
    (h : Database.getTaskById db task.id = some t) :
    Database.getTaskById (Database.updateTask db task) task.id =
      some { task with id := t.id, created_at := t.created_at } :=
  find?_map_updateRow task t db.tasks h

/-- Helper: the success branch of the per-item loop. -/
theorem applyOne_success (items : List SyncQueueItem) (db : DBState)
    (r : ProcessedItem) (e : SyncQueueItem) (now : Nat)
    (hfind : items.find? (fun i => i.id == r.client_id) = some e)
    (hstatus : r.status = "success") :
    SyncService.applyOne items now db r =
      TaskService.updateTaskAfterSync (SyncService.markSynced db e.id)
        e.task_id r.server_id now := by
  unfold SyncService.applyOne
  rw [hfind]
  simp [hstatus]

/-- Helper: the state produced by a cycle whose transmission succeeds. -/
theorem sync_ok_state (db : DBState) (resp : BatchSyncResponse) (now : Nat)
    (hne : (SyncService.drainCandidates db).length ≠ 0) :
    (SyncService.sync db (fun _ => Except.ok resp) now).2 =
      SyncService.applyResults (SyncService.drainCandidates db) now db
        resp.processed_items := by
  simp only [SyncService.sync, if_neg hne]
  rfl

/-- Helper: the error list reported by a cycle whose transmission
succeeds. -/
theorem sync_ok_errors (db : DBState) (resp : BatchSyncResponse) (now : Nat)
    (hne : (SyncService.drainCandidates db).length ≠ 0) :
    (SyncService.sync db (fun _ => Except.ok resp) now).1.errors =
      (resp.processed_items.filter (fun r => r.status == "error")).map
        (SyncService.mkSyncError (SyncService.drainCandidates db) now) := by
  simp only [SyncService.sync, if_neg hne]
  rfl

/-- Authority response answering success for the single entry `q1`. -/
def successResp : BatchSyncResponse :=
  ⟨[{ client_id := "q1", server_id := "srv1", status := "success" }]⟩

/-- C3 counterexample. One pending entry, authority answers success: the
entry is NOT deleted from the sync queue — a row with its id (now with
status synced) is still there, refuting absence from the active queue. -/
theorem success_leaves_row_counterexample :
    ((SyncService.sync db1 (fun _ => Except.ok successResp) 2).2.sync_queue.map
      SyncQueueItem.status) = ["synced"] ∧
    ¬ (∀ q ∈ (SyncService.sync db1 (fun _ => Except.ok successResp) 2).2.sync_queue,
        q.id ≠ q1.id) := by
  constructor
  · decide
  · decide

/-- C3 amended. For a queue entry whose per-item result is success, after
the sync cycle the entry remains in the sync_queue table but with status
synced (every row with its id is marked synced, so it is excluded from
later drains), and the corresponding task has sync_status synced, its
server_id populated from the response and last_synced_at stamped. -/
theorem success_result_marks_synced (db : DBState) (r : ProcessedItem)
    (e : SyncQueueItem) (t : Task) (now : Nat)
    (hfind : (SyncService.drainCandidates db).find?
      (fun i => i.id == r.client_id) = some e)
    (hstatus : r.status = "success")
    (htask : Database.getTaskById db e.task_id = some t) :
    (∃ q ∈ (SyncService.sync db (fun _ => Except.ok ⟨[r]⟩) now).2.sync_queue,
        q.id = e.id ∧ q.status = "synced") ∧
    (∀ q ∈ (SyncService.sync db (fun _ => Except.ok ⟨[r]⟩) now).2.sync_queue,
        q.id = e.id → q.status = "synced") ∧
    Database.getTaskById (SyncService.sync db (fun _ => Except.ok ⟨[r]⟩) now).2
        e.task_id =
      some { t with server_id := some r.server_id, sync_status := "synced",
                    last_synced_at := some now } := by
  have hmemd : e ∈ SyncService.drainCandidates db := List.mem_of_find?_eq_some hfind
  have hne : (SyncService.drainCandidates db).length ≠ 0 := by
    intro h0
    rw [List.length_eq_zero] at h0
    rw [h0] at hmemd
    exact absurd hmemd (List.not_mem_nil e)
  have hmemq : e ∈ db.sync_queue := by
    have hm := (List.mem_insertionSort queueLE).mp hmemd
    exact (List.mem_filter.mp hm).1
  have htid : t.id = e.task_id := by
    have htask2 : db.tasks.find? (fun x : Task => x.id == e.task_id) = some t := htask
    have hp := List.find?_some htask2
    exact eq_of_beq hp
  have hstate : (SyncService.sync db (fun _ => Except.ok ⟨[r]⟩) now).2 =
      TaskService.updateTaskAfterSync (SyncService.markSynced db e.id)
        e.task_id r.server_id now := by
    rw [sync_ok_state db ⟨[r]⟩ now hne]
    show SyncService.applyOne (SyncService.drainCandidates db) now db r = _
    exact applyOne_success _ db r e now hfind hstatus
  have hget2 : Database.getTaskById (SyncService.markSynced db e.id) e.task_id
      = some t := htask
  have hafter : TaskService.updateTaskAfterSync (SyncService.markSynced db e.id)
      e.task_id r.server_id now =
      Database.updateTask (SyncService.markSynced db e.id)
        { t with server_id := some r.server_id, sync_status := "synced",
                 last_synced_at := some now } := by
    unfold TaskService.updateTaskAfterSync
    rw [hget2]
  rw [hstate, hafter]
  refine ⟨?_, ?_, ?_⟩
  · refine ⟨{ e with status := "synced", error_message := none }, ?_, rfl, rfl⟩
    show _ ∈ db.sync_queue.map _
    refine List.mem_map.mpr ⟨e, hmemq, ?_⟩
    simp
  · intro q hq hid
    have hq2 : q ∈ db.sync_queue.map (fun x =>
        if x.id == e.id then { x with status := "synced", error_message := none }
        else x) := hq
    obtain ⟨q0, _, rfl⟩ := List.mem_map.mp hq2
    by_cases h0 : (q0.id == e.id) = true
    · simp [h0]
    · rw [if_neg h0] at hid ⊢
      exact absurd (beq_iff_eq.mpr hid) h0
  · have hsame : Database.getTaskById (SyncService.markSynced db e.id)
        ({ t with server_id := some r.server_id, sync_status := "synced",
                  last_synced_at := some now } : Task).id = some t := by
      show Database.getTaskById (SyncService.markSynced db e.id) t.id = some t
      rw [htid]
      exact hget2
    have hres := getTaskById_updateTask (SyncService.markSynced db e.id)
      { t with server_id := some r.server_id, sync_status := "synced",
               last_synced_at := some now } t hsame
    rw [← htid]
    exact hres

/-- The success result item for the witness. -/
def successItem : ProcessedItem :=
  { client_id := "q1", server_id := "srv1", status := "success" }

/-- C3 amended witness: the concrete one-entry state, evaluated. -/
theorem success_result_marks_synced_witness :
    ({ q1 with status := "synced", error_message := none } : SyncQueueItem).status
      = "synced" ∧
    Database.getTaskById
        (SyncService.sync db1 (fun _ => Except.ok ⟨[successItem]⟩) 2).2 q1.task_id =
      some { task1 with server_id := some "srv1", sync_status := "synced",
                        last_synced_at := some 2 } :=
  ⟨(success_result_marks_synced db1 successItem q1 task1 2
      (by decide) rfl (by decide)).2.1
      { q1 with status := "synced", error_message := none } (by decide) (by decide),
   (success_result_marks_synced db1 successItem q1 task1 2
      (by decide) rfl (by decide)).2.2⟩

/-- Authority response rejecting the single entry `q1`. -/
def errorResp : BatchSyncResponse :=
  ⟨[{ client_id := "q1", server_id := "", status := "error",
      error := some "rejected" }]⟩

/-- C8 counterexample. The failed queue entry has id q1 and task_id t1; the
reported structured error carries "q1" — the queue entry id, not the task
id — in its task_id field, refuting the claim. -/
theorem sync_error_task_id_counterexample :
    ((SyncService.sync db1 (fun _ => Except.ok errorResp) 2).1.errors.map
      SyncError.task_id) = ["q1"] ∧
    ¬ (∀ err ∈ (SyncService.sync db1 (fun _ => Except.ok errorResp) 2).1.errors,
        err.task_id = q1.task_id) := by
  constructor
  · decide
  · decide

/-- C8 amended. Every per-item error result whose client_id matches a
drained queue entry produces a structured error whose task_id field holds
the QUEUE ENTRY id (the client_id), together with the operation of that
entry, its error text and the cycle timestamp. -/
theorem sync_error_carries_entry_id (db : DBState) (rs : List ProcessedItem)
    (now : Nat) (r : ProcessedItem) (e : SyncQueueItem)
    (hr : r ∈ rs) (hstatus : r.status = "error")
    (hfind : (SyncService.drainCandidates db).find?
      (fun i => i.id == r.client_id) = some e)
    (hop : e.operation ≠ "") :
    ({ task_id := e.id, operation := e.operation,
       error := jsOr r.error "Unknown error", timestamp := now } : SyncError) ∈
      (SyncService.sync db (fun _ => Except.ok ⟨rs⟩) now).1.errors := by
  have hmemd : e ∈ SyncService.drainCandidates db := List.mem_of_find?_eq_some hfind
  have hne : (SyncService.drainCandidates db).length ≠ 0 := by
    intro h0
    rw [List.length_eq_zero] at h0
    rw [h0] at hmemd
    exact absurd hmemd (List.not_mem_nil e)
  have hid : e.id = r.client_id := by
    have hp := List.find?_some hfind
    exact eq_of_beq hp
  rw [sync_ok_errors db ⟨rs⟩ now hne]
  have hmf : r ∈ rs.filter (fun x => x.status == "error") :=
    List.mem_filter.mpr ⟨hr, by simp [hstatus]⟩
  have hopeq : jsOr (((SyncService.drainCandidates db).find?
      (fun i => i.id == r.client_id)).map SyncQueueItem.operation) "unknown"
      = e.operation := by
    rw [hfind]
    show (if e.operation = "" then "unknown" else e.operation) = e.operation
    rw [if_neg hop]
  have himg : SyncService.mkSyncError (SyncService.drainCandidates db) now r =
      ({ task_id := e.id, operation := e.operation,
         error := jsOr r.error "Unknown error", timestamp := now } : SyncError) := by
    unfold SyncService.mkSyncError
    rw [hopeq, ← hid]
  rw [← himg]
  exact List.mem_map_of_mem _ hmf

/-- C8 amended witness: the concrete error cycle reports the error with
task_id "q1" (the entry id; the task itself has id "t1"). -/
theorem sync_error_carries_entry_id_witness :
    ({ task_id := "q1", operation := "create", error := "rejected",
       timestamp := 2 } : SyncError) ∈
      (SyncService.sync db1 (fun _ => Except.ok errorResp) 2).1.errors :=
  sync_error_carries_entry_id db1 errorResp.processed_items 2
    ⟨"q1", "", "error", none, none, some "rejected"⟩ q1
    (by decide) rfl (by decide) (by decide)

end SyncSpec
